import Mathlib

/-!
Verification of the payment-event reconciliation core of the repository
(`system-build/src`): field-level encryption (`lib/encryption.ts`), rate
limiting (`lib/rate-limit.ts`), payment notifications (`lib/notifications.ts`)
and the Stripe webhook endpoint
(`app/api/stripe/checkout-session/route.ts`).

Byte strings (Node `Buffer`s, UTF-8 string contents) are modelled as
`List Nat` with each element below 256; character strings that only carry
identity (ids, tags, metadata keys) are modelled as Lean `String`s.
-/

namespace SystemBuild

/-- Byte strings are modelled as lists of naturals; a well-formed byte is below 256. -/
abbrev Bytes := List Nat

namespace Encryption

/-- Base64 alphabet used by Node's `Buffer`: maps a 6-bit value to its ASCII code. -/
def alphaB64 (v : Nat) : Nat :=
  if v < 26 then 65 + v
  else if v < 52 then 97 + (v - 26)
  else if v < 62 then 48 + (v - 52)
  else if v = 62 then 43
  else 47

/-- Inverse base64 alphabet: ASCII code to 6-bit value, `none` outside the alphabet. -/
def idxB64 (c : Nat) : Option Nat :=
  if 65 ≤ c ∧ c ≤ 90 then some (c - 65)
  else if 97 ≤ c ∧ c ≤ 122 then some (c - 97 + 26)
  else if 48 ≤ c ∧ c ≤ 57 then some (c - 48 + 52)
  else if c = 43 then some 62
  else if c = 47 then some 63
  else none

/-- Whether an ASCII code belongs to the base64 alphabet (padding `=` does not). -/
def isB64Char (c : Nat) : Bool := (idxB64 c).isSome

/-- Value of a base64 character, defaulting to 0 (only used on alphabet characters). -/
def val64 (c : Nat) : Nat := (idxB64 c).getD 0

/-- Base64 encoding of a byte list (`Buffer.prototype.toString('base64')`),
producing ASCII codes, `=` (code 61) as padding. -/
def encodeChunks : Bytes → Bytes
  | [] => []
  | [b1] => [alphaB64 (b1 / 4), alphaB64 (b1 % 4 * 16), 61, 61]
  | [b1, b2] =>
      [alphaB64 (b1 / 4), alphaB64 (b1 % 4 * 16 + b2 / 16), alphaB64 (b2 % 16 * 4), 61]
  | b1 :: b2 :: b3 :: rest =>
      alphaB64 (b1 / 4) :: alphaB64 (b1 % 4 * 16 + b2 / 16) ::
      alphaB64 (b2 % 16 * 4 + b3 / 64) :: alphaB64 (b3 % 64) :: encodeChunks rest

/-- Decoding of an alphabet-only base64 character stream into bytes; a single
trailing character is dropped, as in Node's lenient decoder. -/
def decodeChunks : Bytes → Bytes
  | c1 :: c2 :: c3 :: c4 :: rest =>
      (val64 c1 * 4 + val64 c2 / 16) ::
      (val64 c2 % 16 * 16 + val64 c3 / 4) ::
      (val64 c3 % 4 * 64 + val64 c4) :: decodeChunks rest
  | [c1, c2] => [val64 c1 * 4 + val64 c2 / 16]
  | [c1, c2, c3] => [val64 c1 * 4 + val64 c2 / 16, val64 c2 % 16 * 16 + val64 c3 / 4]
  | _ => []

/-- Model of `Buffer.from(s, 'base64')`: Node's lenient decoder skips characters
outside the alphabet (including `=` padding) and never throws. -/
def decodeB64 (s : Bytes) : Bytes := decodeChunks (s.filter isB64Char)

/-- Model of `buffer.toString('base64')`. -/
def encodeB64 (bs : Bytes) : Bytes := encodeChunks bs

theorem idxB64_alphaB64_fin : ∀ v : Fin 64, idxB64 (alphaB64 v.val) = some v.val := by decide

theorem idx_alpha (v : Nat) (h : v < 64) : idxB64 (alphaB64 v) = some v :=
  idxB64_alphaB64_fin ⟨v, h⟩

theorem isB64Char_alpha (v : Nat) (h : v < 64) : isB64Char (alphaB64 v) = true := by
  simp [isB64Char, idx_alpha v h]

theorem val64_alpha (v : Nat) (h : v < 64) : val64 (alphaB64 v) = v := by
  simp [val64, idx_alpha v h]

theorem isB64Char_pad : isB64Char 61 = false := by decide

/-- Base64 round trip on byte lists: Node's lenient decode of an encode is the identity. -/
theorem decodeB64_encodeB64 : ∀ bs : Bytes, (∀ b ∈ bs, b < 256) →
    decodeB64 (encodeB64 bs) = bs := by
  intro bs
  unfold decodeB64 encodeB64
  induction bs using encodeChunks.induct with
  | case1 => intro _; rfl
  | case2 b1 =>
      intro h
      have hb1 : b1 < 256 := h b1 (by simp)
      have e1 : b1 / 4 < 64 := by omega
      have e2 : b1 % 4 * 16 < 64 := by omega
      rw [encodeChunks, List.filter_cons_of_pos (isB64Char_alpha _ e1),
        List.filter_cons_of_pos (isB64Char_alpha _ e2),
        List.filter_cons_of_neg (by simp [isB64Char_pad]),
        List.filter_cons_of_neg (by simp [isB64Char_pad])]
      simp only [List.filter_nil, decodeChunks, val64_alpha _ e1, val64_alpha _ e2]
      congr 1
      omega
  | case3 b1 b2 =>
      intro h
      have hb1 : b1 < 256 := h b1 (by simp)
      have hb2 : b2 < 256 := h b2 (by simp)
      have e1 : b1 / 4 < 64 := by omega
      have e2 : b1 % 4 * 16 + b2 / 16 < 64 := by omega
      have e3 : b2 % 16 * 4 < 64 := by omega
      rw [encodeChunks, List.filter_cons_of_pos (isB64Char_alpha _ e1),
        List.filter_cons_of_pos (isB64Char_alpha _ e2),
        List.filter_cons_of_pos (isB64Char_alpha _ e3),
        List.filter_cons_of_neg (by simp [isB64Char_pad])]
      simp only [List.filter_nil, decodeChunks, val64_alpha _ e1, val64_alpha _ e2,
        val64_alpha _ e3]
      congr 1
      · omega
      · congr 1
        omega
  | case4 b1 b2 b3 rest ih =>
      intro h
      have hb1 : b1 < 256 := h b1 (by simp)
      have hb2 : b2 < 256 := h b2 (by simp)
      have hb3 : b3 < 256 := h b3 (by simp)
      have hrest : ∀ b ∈ rest, b < 256 := fun b hb => h b (by simp [hb])
      have e1 : b1 / 4 < 64 := by omega
      have e2 : b1 % 4 * 16 + b2 / 16 < 64 := by omega
      have e3 : b2 % 16 * 4 + b3 / 64 < 64 := by omega
      have e4 : b3 % 64 < 64 := by omega
      rw [encodeChunks, List.filter_cons_of_pos (isB64Char_alpha _ e1),
        List.filter_cons_of_pos (isB64Char_alpha _ e2),
        List.filter_cons_of_pos (isB64Char_alpha _ e3),
        List.filter_cons_of_pos (isB64Char_alpha _ e4)]
      rw [decodeChunks, ih hrest]
      simp only [val64_alpha _ e1, val64_alpha _ e2, val64_alpha _ e3, val64_alpha _ e4]
      congr 1
      · omega
      · congr 1
        · omega
        · congr 1
          omega

/-- Salt length in bytes (`SALT_LENGTH = 16`). -/
def SALT_LENGTH : Nat := 16

/-- Initialisation vector length (`IV_LENGTH = 12`, 96 bits for GCM). -/
def IV_LENGTH : Nat := 12

/-- Authentication tag length (`AUTH_TAG_LENGTH = 16`, 128 bits). -/
def AUTH_TAG_LENGTH : Nat := 16

/-- Model of `getEncryptionKey`: reads `ENCRYPTION_KEY` from the environment
(`envKey` is the ASCII codes of the variable's value, `none` when unset),
base64-decodes it, and fails unless the decoded key is exactly 32 bytes. -/
def getEncryptionKey (envKey : Option Bytes) : Except String Bytes :=
  match envKey with
  | none => .error "ENCRYPTION_KEY environment variable is required for encryption"
  | some key =>
      let keyBuffer := decodeB64 key
      if keyBuffer.length ≠ 32 then
        .error "ENCRYPTION_KEY must be exactly 32 bytes (256 bits) when decoded"
      else .ok keyBuffer

/-- Model of `encrypt`: empty input short-circuits to empty output; otherwise a
per-call sub-key is derived via HKDF from the master key and the fresh salt,
the plaintext is encrypted with AES-256-GCM, and salt, iv, auth tag and
ciphertext are packed into one base64 string. The stdlib crypto primitives
(`crypto.hkdfSync` and the GCM cipher, which returns ciphertext and tag) and
the fresh random `salt` and `iv` from `crypto.randomBytes` are passed
explicitly, since they are external to the repository. -/
def encrypt (hkdf : Bytes → Bytes → Bytes) (encGCM : Bytes → Bytes → Bytes → Bytes × Bytes)
    (envKey : Option Bytes) (salt iv plaintext : Bytes) : Except String Bytes :=
  if plaintext = [] then .ok []
  else
    (getEncryptionKey envKey).map fun key =>
      let derivedKey := hkdf key salt
      let encrypted := (encGCM derivedKey iv plaintext).1
      let authTag := (encGCM derivedKey iv plaintext).2
      encodeB64 (salt ++ iv ++ authTag ++ encrypted)

/-- Model of `decrypt`: empty input short-circuits to empty output; otherwise
the blob is base64-decoded, split into salt, iv, auth tag and ciphertext at the
fixed offsets, the sub-key is re-derived via HKDF from the embedded salt, and
GCM decryption runs; it fails when tag verification fails (the GCM primitive
`decGCM` returns `none`). -/
def decrypt (hkdf : Bytes → Bytes → Bytes)
    (decGCM : Bytes → Bytes → Bytes → Bytes → Option Bytes)
    (envKey : Option Bytes) (encryptedData : Bytes) : Except String Bytes :=
  if encryptedData = [] then .ok []
  else
    match getEncryptionKey envKey with
    | .error e => .error e
    | .ok key =>
        let combined := decodeB64 encryptedData
        let salt := combined.take SALT_LENGTH
        let iv := (combined.drop SALT_LENGTH).take IV_LENGTH
        let authTag := (combined.drop (SALT_LENGTH + IV_LENGTH)).take AUTH_TAG_LENGTH
        let ciphertext := combined.drop (SALT_LENGTH + IV_LENGTH + AUTH_TAG_LENGTH)
        match decGCM (hkdf key salt) iv authTag ciphertext with
        | some plaintext => .ok plaintext
        | none => .error "Unsupported state or unable to authenticate data"

/-- Model of `isEncrypted`: a value looks like an encrypted blob when its
base64 decoding has at least salt + iv + tag + 1 = 45 bytes. `Buffer.from`
with base64 never throws, so the try/catch in the source never fires. -/
def isEncrypted (value : Bytes) : Bool :=
  if value = [] then false
  else decide (SALT_LENGTH + IV_LENGTH + AUTH_TAG_LENGTH + 1 ≤ (decodeB64 value).length)

/-- Model of `safeDecrypt`: returns the value unchanged unless it classifies as
an encrypted blob; if it does and decryption fails, logs and returns the
original value instead of propagating the error. -/
def safeDecrypt (hkdf : Bytes → Bytes → Bytes)
    (decGCM : Bytes → Bytes → Bytes → Bytes → Option Bytes)
    (envKey : Option Bytes) (value : Bytes) : Bytes :=
  if value = [] then []
  else if !isEncrypted value then value
  else
    match decrypt hkdf decGCM envKey value with
    | .ok plaintext => plaintext
    | .error _ => value

theorem encodeB64_ne_nil (bs : Bytes) (h : bs ≠ []) : encodeB64 bs ≠ [] := by
  match bs with
  | [] => exact absurd rfl h
  | [b1] => simp [encodeB64, encodeChunks]
  | [b1, b2] => simp [encodeB64, encodeChunks]
  | b1 :: b2 :: b3 :: rest => simp [encodeB64, encodeChunks]

/-- C4 (main): with a correctly configured vault key, `decrypt` inverts
`encrypt` for every plaintext, conditional only on the stated behaviour of the
external stdlib crypto primitives (HKDF determinism is automatic since `hkdf`
is a function; `hgcm` states that GCM decryption inverts GCM encryption at the
values in question; `hbytes`/`htag` state that the external primitives return
well-formed bytes and a 16-byte tag). -/
theorem decrypt_encrypt_roundtrip
    (hkdf : Bytes → Bytes → Bytes) (encGCM : Bytes → Bytes → Bytes → Bytes × Bytes)
    (decGCM : Bytes → Bytes → Bytes → Bytes → Option Bytes)
    (envKey key salt iv plaintext : Bytes)
    (hkey : getEncryptionKey (some envKey) = .ok key)
    (hsalt : salt.length = SALT_LENGTH) (hiv : iv.length = IV_LENGTH)
    (htag : (encGCM (hkdf key salt) iv plaintext).2.length = AUTH_TAG_LENGTH)
    (hbytes : ∀ b ∈ salt ++ iv ++ (encGCM (hkdf key salt) iv plaintext).2 ++
      (encGCM (hkdf key salt) iv plaintext).1, b < 256)
    (hgcm : decGCM (hkdf key salt) iv (encGCM (hkdf key salt) iv plaintext).2
      (encGCM (hkdf key salt) iv plaintext).1 = some plaintext) :
    (encrypt hkdf encGCM (some envKey) salt iv plaintext).bind
      (decrypt hkdf decGCM (some envKey)) = .ok plaintext := by
  by_cases hpt : plaintext = []
  · subst hpt
    simp [encrypt, decrypt, Except.bind]
  · have hcombined :
        decodeB64 (encodeB64 (salt ++ (iv ++ ((encGCM (hkdf key salt) iv plaintext).2 ++
          (encGCM (hkdf key salt) iv plaintext).1)))) =
        salt ++ (iv ++ ((encGCM (hkdf key salt) iv plaintext).2 ++
          (encGCM (hkdf key salt) iv plaintext).1)) := by
      apply decodeB64_encodeB64
      simpa using hbytes
    have hne : encodeB64 (salt ++ (iv ++ ((encGCM (hkdf key salt) iv plaintext).2 ++
        (encGCM (hkdf key salt) iv plaintext).1))) ≠ [] := by
      apply encodeB64_ne_nil
      intro hc
      rw [List.append_eq_nil] at hc
      have : salt.length = 0 := by rw [hc.1]; rfl
      rw [hsalt] at this
      simp [SALT_LENGTH] at this
    have hd1 : (salt ++ (iv ++ ((encGCM (hkdf key salt) iv plaintext).2 ++
        (encGCM (hkdf key salt) iv plaintext).1))).drop (SALT_LENGTH + IV_LENGTH) =
        (encGCM (hkdf key salt) iv plaintext).2 ++ (encGCM (hkdf key salt) iv plaintext).1 := by
      rw [← List.drop_drop, List.drop_left' hsalt, List.drop_left' hiv]
    have hd2 : (salt ++ (iv ++ ((encGCM (hkdf key salt) iv plaintext).2 ++
        (encGCM (hkdf key salt) iv plaintext).1))).drop
          (SALT_LENGTH + IV_LENGTH + AUTH_TAG_LENGTH) =
        (encGCM (hkdf key salt) iv plaintext).1 := by
      rw [← List.drop_drop, hd1, List.drop_left' htag]
    unfold encrypt
    rw [if_neg hpt, hkey]
    simp only [Except.map, Except.bind]
    unfold decrypt
    simp only [List.append_assoc]
    rw [if_neg hne]
    simp only [hkey, hcombined]
    rw [List.take_left' hsalt, List.drop_left' hsalt, List.take_left' hiv,
      hd1, hd2, List.take_left' htag, hgcm]

/-- C5 (main): `safeDecrypt` never propagates an error: it is the identity on
every value that does not classify as a validly-framed encrypted blob, and it
returns the original value whenever the value classifies as a blob but
`decrypt` fails. -/
theorem safeDecrypt_total (hkdf : Bytes → Bytes → Bytes)
    (decGCM : Bytes → Bytes → Bytes → Bytes → Option Bytes)
    (envKey : Option Bytes) (value : Bytes) :
    (isEncrypted value = false → safeDecrypt hkdf decGCM envKey value = value) ∧
    (∀ e, isEncrypted value = true → decrypt hkdf decGCM envKey value = .error e →
      safeDecrypt hkdf decGCM envKey value = value) := by
  constructor
  · intro hnotenc
    by_cases hv : value = []
    · subst hv; simp [safeDecrypt]
    · simp [safeDecrypt, hv, hnotenc]
  · intro e henc hdec
    have hv : value ≠ [] := by
      intro hc
      subst hc
      simp [isEncrypted] at henc
    simp [safeDecrypt, hv, henc, hdec]

/-- C5 (witness): a plain value that is not a blob passes through unchanged,
and a well-framed blob whose decryption fails (here: no key configured) also
passes through unchanged. -/
theorem safeDecrypt_total_witness :
    safeDecrypt (fun k _ => k) (fun _ _ _ _ => none) none [104, 105] = [104, 105] ∧
    safeDecrypt (fun k _ => k) (fun _ _ _ _ => none) none
      (encodeB64 (List.replicate 45 0)) = encodeB64 (List.replicate 45 0) := by
  refine ⟨(safeDecrypt_total _ _ none [104, 105]).1 (by decide), ?_⟩
  exact (safeDecrypt_total (fun k _ => k) (fun _ _ _ _ => none) none
    (encodeB64 (List.replicate 45 0))).2
    "ENCRYPTION_KEY environment variable is required for encryption"
    (by decide) rfl

/-- C6 (counterexample to the claim as stated): with the vault key absent,
`encrypt` applied to the empty string does not fail — it returns the empty
string (which equals its plaintext input) without ever consulting the key, so
the claim's "every vault operation refuses to operate … for any input" fails
at the empty input. -/
theorem encrypt_empty_no_key_succeeds :
    encrypt (fun k _ => k) (fun _ _ m => (m, List.replicate 16 0)) none [] [] [] =
      .ok [] ∧
    decrypt (fun k _ => k) (fun _ _ _ c => some c) none [] = .ok [] := by
  constructor <;> rfl

/-- C6 (amended): if the vault key is absent from the environment, or present
but not decoding to exactly 32 bytes, then `getEncryptionKey` fails, and
`encrypt` and `decrypt` fail with an error on every nonempty input (never
falling back to plaintext); only the empty input short-circuits to the empty
output, a documented no-op. -/
theorem vault_fails_without_key
    (hkdf : Bytes → Bytes → Bytes) (encGCM : Bytes → Bytes → Bytes → Bytes × Bytes)
    (decGCM : Bytes → Bytes → Bytes → Bytes → Option Bytes)
    (envKey : Option Bytes)
    (hbad : envKey = none ∨ ∃ k, envKey = some k ∧ (decodeB64 k).length ≠ 32) :
    (∃ e, getEncryptionKey envKey = .error e) ∧
    (∀ salt iv plaintext, plaintext ≠ [] →
      ∃ e, encrypt hkdf encGCM envKey salt iv plaintext = .error e) ∧
    (∀ blob, blob ≠ [] → ∃ e, decrypt hkdf decGCM envKey blob = .error e) := by
  obtain ⟨e, he⟩ : ∃ e, getEncryptionKey envKey = .error e := by
    rcases hbad with h | ⟨k, hk, hlen⟩
    · subst h
      exact ⟨"ENCRYPTION_KEY environment variable is required for encryption", rfl⟩
    · subst hk
      refine ⟨"ENCRYPTION_KEY must be exactly 32 bytes (256 bits) when decoded", ?_⟩
      simp [getEncryptionKey, hlen]
  refine ⟨⟨e, he⟩, ?_, ?_⟩
  · intro salt iv plaintext hpt
    refine ⟨e, ?_⟩
    unfold encrypt
    rw [if_neg hpt, he]
    rfl
  · intro blob hblob
    refine ⟨e, ?_⟩
    unfold decrypt
    rw [if_neg hblob, he]

/-- C6 (witness): with no key configured, `encrypt` and `decrypt` fail on a
concrete nonempty input. -/
theorem vault_fails_without_key_witness :
    (∃ e, encrypt (fun k _ => k) (fun _ _ m => (m, List.replicate 16 0)) none
      (List.replicate 16 1) (List.replicate 12 2) [104] = .error e) ∧
    (∃ e, decrypt (fun k _ => k) (fun _ _ _ c => some c) none [104] = .error e) := by
  refine ⟨(vault_fails_without_key (fun k _ => k) (fun _ _ m => (m, List.replicate 16 0))
    (fun _ _ _ c => some c) none (Or.inl rfl)).2.1 _ _ _ (by decide), ?_⟩
  exact (vault_fails_without_key (fun k _ => k) (fun _ _ m => (m, List.replicate 16 0))
    (fun _ _ _ c => some c) none (Or.inl rfl)).2.2 [104] (by decide)

/-- C4 (witness): the round trip evaluated at a concrete key, salt, iv and
plaintext, with concrete primitives satisfying the stated GCM inversion. -/
theorem decrypt_encrypt_roundtrip_witness :
    (encrypt (fun k _ => k) (fun _ _ m => (m, List.replicate 16 3))
        (some (encodeB64 (List.replicate 32 7))) (List.replicate 16 1)
        (List.replicate 12 2) [104, 105]).bind
      (decrypt (fun k _ => k)
        (fun _ _ t c => if t = List.replicate 16 3 then some c else none)
        (some (encodeB64 (List.replicate 32 7)))) = .ok [104, 105] := by
  apply decrypt_encrypt_roundtrip _ _ _ _ (List.replicate 32 7) <;> first | rfl | decide

end Encryption

namespace RateLimit

/-- Preset names of the centralized rate limiter (`RATE_LIMITS` keys). -/
inductive RateLimitPreset
  | INTAKE
  | AUTH
  | ADMIN
  | API
deriving DecidableEq

/-- One preset: window seconds, primary max, in-memory fallback max. -/
structure RateLimitConfig where
  window : Nat
  max : Nat
  fallbackMax : Nat
deriving DecidableEq

/-- Model of the `RATE_LIMITS` preset table. -/
def RATE_LIMITS : RateLimitPreset → RateLimitConfig
  | .INTAKE => ⟨60, 10, 5⟩
  | .AUTH => ⟨60, 5, 3⟩
  | .ADMIN => ⟨60, 20, 10⟩
  | .API => ⟨60, 30, 15⟩

/-- An entry of the in-memory store: request count and window reset time (ms). -/
structure RLEntry where
  count : Nat
  resetAt : Nat
deriving DecidableEq

/-- The in-memory rate limit store (`inMemoryRateLimits`, a JS `Map`),
modelled as an association list in insertion order. -/
abbrev RLMap := List (String × RLEntry)

/-- Model of `Map.prototype.get`. -/
def lookupRL (m : RLMap) (key : String) : Option RLEntry :=
  match m with
  | [] => none
  | (k, v) :: rest => if k = key then some v else lookupRL rest key

/-- Model of `Map.prototype.set`: replaces an existing binding in place,
otherwise appends. -/
def setRL (m : RLMap) (key : String) (v : RLEntry) : RLMap :=
  match m with
  | [] => [(key, v)]
  | (k, w) :: rest => if k = key then (k, v) :: rest else (k, w) :: setRL rest key v

/-- Model of the for-loop deleting expired entries (`now > resetAt`). -/
def sweepRL (now : Nat) (m : RLMap) : RLMap :=
  m.filter fun kv => !decide (now > kv.2.resetAt)

/-- Result of one rate limit check: `allowed`, `remaining`, `resetAt` (ms).
`remaining` uses truncated Nat subtraction, which models the source's
`Math.max(0, maxRequests - count)`. -/
structure RLResult where
  allowed : Bool
  remaining : Nat
  resetAt : Nat
deriving DecidableEq

/-- Model of `checkInMemoryRateLimit`. `now` is `Date.now()` in milliseconds
and `sweep` says whether the `Math.random() < 0.01` opportunistic cleanup
fires on this call. The source reads the entry before sweeping, then either
starts a new window (count 1) or increments in place; `allowed = count <= max`
only on the increment path, so the first request of a window is always
allowed. -/
def checkInMemoryRateLimit (now : Nat) (sweep : Bool) (key : String)
    (windowSeconds maxRequests : Nat) (m : RLMap) : RLResult × RLMap :=
  let m1 := if sweep then sweepRL now m else m
  match lookupRL m key with
  | none =>
      (⟨true, maxRequests - 1, now + windowSeconds * 1000⟩,
        setRL m1 key ⟨1, now + windowSeconds * 1000⟩)
  | some entry =>
      if now > entry.resetAt then
        (⟨true, maxRequests - 1, now + windowSeconds * 1000⟩,
          setRL m1 key ⟨1, now + windowSeconds * 1000⟩)
      else
        (⟨decide (entry.count + 1 ≤ maxRequests), maxRequests - (entry.count + 1),
            entry.resetAt⟩,
          setRL m1 key ⟨entry.count + 1, entry.resetAt⟩)

/-- Lower-cased preset name, as in `preset.toLowerCase()`. -/
def presetName : RateLimitPreset → String
  | .INTAKE => "intake"
  | .AUTH => "auth"
  | .ADMIN => "admin"
  | .API => "api"

/-- Model of the key template of `checkRateLimit` (`ns` is the optional
namespace argument). -/
def rateLimitKey (preset : RateLimitPreset) (ns : Option String)
    (identifier : String) : String :=
  match ns with
  | some n => "rate_limit:" ++ n ++ ":" ++ identifier
  | none => "rate_limit:" ++ presetName preset ++ ":" ++ identifier

/-- Outcome of the Upstash REST round trips during one `checkRateLimit` call —
the external dependency of the primary path. -/
inductive RedisOutcome
  /-- `UPSTASH_REDIS_REST_URL` or the token is not set. -/
  | unconfigured
  /-- The fetch rejected (network failure): the call throws and is caught. -/
  | unreachable
  /-- The store was reached but responded non-OK: `redisCommand` returns
  `null`, which coerces to 0 in the JS comparisons of the caller. -/
  | respondedNotOk
  /-- `INCR` returned the running count and `TTL` returned `ttl` seconds. -/
  | counted (count : Nat) (ttl : Int)

/-- Model of `checkRateLimit`: with the store unconfigured, or when the round
trip throws, it degrades to the in-memory limiter with the preset's stricter
`fallbackMax`; with a counting store, `allowed = count <= max`; a reachable
store answering non-OK yields `null` counts, so `null <= max` is true and the
call is allowed with `remaining = max`. -/
def checkRateLimit (redis : RedisOutcome) (now : Nat) (sweep : Bool)
    (identifier : String) (preset : RateLimitPreset) (ns : Option String)
    (m : RLMap) : RLResult × RLMap :=
  let config := RATE_LIMITS preset
  let key := rateLimitKey preset ns identifier
  match redis with
  | .unconfigured => checkInMemoryRateLimit now sweep key config.window config.fallbackMax m
  | .unreachable => checkInMemoryRateLimit now sweep key config.window config.fallbackMax m
  | .respondedNotOk => (⟨true, config.max, now + config.window * 1000⟩, m)
  | .counted count ttl =>
      (⟨decide (count ≤ config.max), config.max - count,
          now + (if ttl > 0 then ttl.toNat * 1000 else config.window * 1000)⟩, m)

/-- A sequence of in-memory checks for one key: each element of `calls` is a
(time, sweep) pair; returns the allowed bits in order and the final store. -/
def rlRun (key : String) (w N : Nat) : List (Nat × Bool) → RLMap → List Bool × RLMap
  | [], m => ([], m)
  | (t, sw) :: rest, m =>
      let step := checkInMemoryRateLimit t sw key w N m
      let next := rlRun key w N rest step.2
      (step.1.allowed :: next.1, next.2)

theorem lookup_set (m : RLMap) (key : String) (v : RLEntry) :
    lookupRL (setRL m key v) key = some v := by
  induction m with
  | nil => simp [setRL, lookupRL]
  | cons kv rest ih =>
      obtain ⟨k, w⟩ := kv
      by_cases hk : k = key
      · simp [setRL, lookupRL, hk]
      · simp [setRL, lookupRL, hk, ih]

theorem rlStep_fresh (now : Nat) (sw : Bool) (key : String) (w N : Nat) (m : RLMap)
    (h : lookupRL m key = none) :
    checkInMemoryRateLimit now sw key w N m =
      (⟨true, N - 1, now + w * 1000⟩,
        setRL (if sw then sweepRL now m else m) key ⟨1, now + w * 1000⟩) := by
  simp [checkInMemoryRateLimit, h]

theorem rlStep_inWindow (now : Nat) (sw : Bool) (key : String) (w N : Nat) (m : RLMap)
    (c r : Nat) (h : lookupRL m key = some ⟨c, r⟩) (hr : ¬ now > r) :
    checkInMemoryRateLimit now sw key w N m =
      (⟨decide (c + 1 ≤ N), N - (c + 1), r⟩,
        setRL (if sw then sweepRL now m else m) key ⟨c + 1, r⟩) := by
  simp [checkInMemoryRateLimit, h, hr]

theorem rlStep_expired (now : Nat) (sw : Bool) (key : String) (w N : Nat) (m : RLMap)
    (c r : Nat) (h : lookupRL m key = some ⟨c, r⟩) (hr : r < now) :
    checkInMemoryRateLimit now sw key w N m =
      (⟨true, N - 1, now + w * 1000⟩,
        setRL (if sw then sweepRL now m else m) key ⟨1, now + w * 1000⟩) := by
  simp [checkInMemoryRateLimit, h, hr]

theorem rlRun_inWindow (key : String) (w N r : Nat) :
    ∀ (calls : List (Nat × Bool)) (m : RLMap) (c : Nat),
      lookupRL m key = some ⟨c, r⟩ → (∀ p ∈ calls, p.1 ≤ r) →
      (rlRun key w N calls m).1 =
        (List.range calls.length).map (fun i => decide (c + i + 1 ≤ N)) ∧
      lookupRL (rlRun key w N calls m).2 key = some ⟨c + calls.length, r⟩ := by
  intro calls
  induction calls with
  | nil =>
      intro m c h _
      simpa [rlRun] using h
  | cons p rest ih =>
      intro m c h hwin
      obtain ⟨t, sw⟩ := p
      have ht : ¬ t > r := by
        have := hwin (t, sw) (by simp)
        simpa using this
      rw [rlRun]
      rw [rlStep_inWindow t sw key w N m c r h ht]
      have hnext : lookupRL (setRL (if sw then sweepRL t m else m) key ⟨c + 1, r⟩) key =
          some ⟨c + 1, r⟩ := lookup_set _ _ _
      obtain ⟨h1, h2⟩ := ih _ (c + 1) hnext (fun q hq => hwin q (by simp [hq]))
      refine ⟨?_, ?_⟩
      · have htail : List.map (fun i => decide (c + 1 + i + 1 ≤ N)) (List.range rest.length) =
            List.map ((fun i => decide (c + i + 1 ≤ N)) ∘ Nat.succ) (List.range rest.length) := by
          apply List.map_congr_left
          intro i _
          simp only [Function.comp, Function.comp_apply]
          exact decide_eq_decide.mpr (by omega)
        simp only [h1, List.length_cons, List.range_succ_eq_map, List.map_cons, List.map_map,
          htail, Nat.add_zero]
      · simpa [Nat.add_assoc, Nat.add_comm 1 rest.length] using h2

theorem map_threshold_replicate (N : Nat) (hN : 1 ≤ N) :
    true :: (List.range N).map (fun i => decide (1 + i + 1 ≤ N)) =
      List.replicate N true ++ [false] := by
  obtain ⟨M, rfl⟩ : ∃ M, N = M + 1 := ⟨N - 1, by omega⟩
  rw [List.range_succ, List.map_append]
  have h1 : (List.range M).map (fun i => decide (1 + i + 1 ≤ M + 1)) =
      List.replicate M true := by
    rw [List.eq_replicate_iff]
    refine ⟨by simp, ?_⟩
    intro b hb
    obtain ⟨i, hi, rfl⟩ := List.mem_map.mp hb
    have : i < M := List.mem_range.mp hi
    simp
    omega
  have h2 : decide (1 + M + 1 ≤ M + 1) = false := by
    simp
  rw [h1, List.map_cons, h2, List.replicate_succ, List.cons_append]
  rfl

theorem count_true_map_lt (K : Nat) :
    ∀ L, (List.map (fun i => decide (i < K)) (List.range L)).count true = min K L := by
  intro L
  induction L with
  | zero => simp
  | succ L ih =>
      rw [List.range_succ, List.map_append, List.count_append, ih]
      by_cases h : L < K <;> simp [h] <;> omega

/-- C7 (main): for any key, window, and effective per-window maximum N at
least 1, starting from a store with no entry for the key, a sequence of N+1
checks whose later arrivals stay within the window opened by the first yields
allowed for the first N checks and rejected for the (N+1)-th; and any check
arriving strictly after the window's reset time is allowed again. -/
theorem rate_limit_n_plus_one (key : String) (w N : Nat) (m : RLMap) (t0 : Nat)
    (s0 : Bool) (calls : List (Nat × Bool)) (hN : 1 ≤ N)
    (hfresh : lookupRL m key = none) (hlen : calls.length = N)
    (hwin : ∀ p ∈ calls, p.1 ≤ t0 + w * 1000) :
    (rlRun key w N ((t0, s0) :: calls) m).1 = List.replicate N true ++ [false] ∧
    (∀ t sw, t0 + w * 1000 < t →
      ((checkInMemoryRateLimit t sw key w N
        (rlRun key w N ((t0, s0) :: calls) m).2).1).allowed = true) := by
  have hstep := rlStep_fresh t0 s0 key w N m hfresh
  have hnext : lookupRL (setRL (if s0 then sweepRL t0 m else m) key
      ⟨1, t0 + w * 1000⟩) key = some ⟨1, t0 + w * 1000⟩ := lookup_set _ _ _
  obtain ⟨h1, h2⟩ := rlRun_inWindow key w N (t0 + w * 1000) calls _ 1 hnext hwin
  constructor
  · rw [rlRun, hstep]
    simp only [h1, hlen]
    exact map_threshold_replicate N hN
  · intro t sw ht
    have hfin : lookupRL (rlRun key w N ((t0, s0) :: calls) m).2 key =
        some ⟨1 + calls.length, t0 + w * 1000⟩ := by
      rw [rlRun, hstep]
      exact h2
    rw [rlStep_expired t sw key w N _ (1 + calls.length) (t0 + w * 1000) hfin ht]

/-- C7 (witness): with max 2, three checks in one window are allowed, allowed,
rejected, and a check after the window is allowed again. -/
theorem rate_limit_n_plus_one_witness :
    (rlRun "k" 60 2 [(0, false), (1, false), (2, false)] []).1 =
      [true, true, false] ∧
    ((checkInMemoryRateLimit 70000 false "k" 60 2
      (rlRun "k" 60 2 [(0, false), (1, false), (2, false)] []).2).1).allowed = true := by
  have h := rate_limit_n_plus_one "k" 60 2 [] 0 false [(1, false), (2, false)]
    (by decide) rfl rfl (by decide)
  exact ⟨by rw [h.1]; rfl, h.2 70000 false (by decide)⟩

theorem rlRun_fresh_count_le (key : String) (w N : Nat) (m : RLMap) (t0 : Nat)
    (s0 : Bool) (calls : List (Nat × Bool)) (hN : 1 ≤ N)
    (hfresh : lookupRL m key = none)
    (hwin : ∀ p ∈ calls, p.1 ≤ t0 + w * 1000) :
    (rlRun key w N ((t0, s0) :: calls) m).1.count true ≤ N := by
  have hstep := rlStep_fresh t0 s0 key w N m hfresh
  have hnext : lookupRL (setRL (if s0 then sweepRL t0 m else m) key
      ⟨1, t0 + w * 1000⟩) key = some ⟨1, t0 + w * 1000⟩ := lookup_set _ _ _
  obtain ⟨h1, _⟩ := rlRun_inWindow key w N (t0 + w * 1000) calls _ 1 hnext hwin
  rw [rlRun, hstep]
  simp only [h1]
  have hmap : List.map (fun i => decide (1 + i + 1 ≤ N)) (List.range calls.length) =
      List.map (fun i => decide (i < N - 1)) (List.range calls.length) := by
    apply List.map_congr_left
    intro i _
    exact decide_eq_decide.mpr (by omega)
  rw [List.count_cons_self, hmap, count_true_map_lt]
  omega

/-- C8 (main): the fallback threshold is strictly below the primary threshold
for the preset; with the store unconfigured or unreachable, `checkRateLimit`
is exactly the in-memory limiter at the stricter `fallbackMax`; and under the
fallback, any burst of checks within a single window gets at most
`fallbackMax` requests allowed — bounded, never unlimited. -/
theorem rate_limit_fallback (identifier : String) (preset : RateLimitPreset)
    (ns : Option String) (now t0 : Nat) (sw s0 : Bool) (m : RLMap)
    (calls : List (Nat × Bool))
    (hfresh : lookupRL m (rateLimitKey preset ns identifier) = none)
    (hwin : ∀ p ∈ calls, p.1 ≤ t0 + (RATE_LIMITS preset).window * 1000) :
    ((RATE_LIMITS preset).fallbackMax < (RATE_LIMITS preset).max) ∧
    (checkRateLimit .unconfigured now sw identifier preset ns m =
      checkInMemoryRateLimit now sw (rateLimitKey preset ns identifier)
        (RATE_LIMITS preset).window (RATE_LIMITS preset).fallbackMax m) ∧
    (checkRateLimit .unreachable now sw identifier preset ns m =
      checkInMemoryRateLimit now sw (rateLimitKey preset ns identifier)
        (RATE_LIMITS preset).window (RATE_LIMITS preset).fallbackMax m) ∧
    ((rlRun (rateLimitKey preset ns identifier) (RATE_LIMITS preset).window
        (RATE_LIMITS preset).fallbackMax ((t0, s0) :: calls) m).1.count true ≤
      (RATE_LIMITS preset).fallbackMax) := by
  refine ⟨by cases preset <;> decide, rfl, rfl, ?_⟩
  apply rlRun_fresh_count_le _ _ _ _ _ _ _ (by cases preset <;> decide) hfresh hwin

/-- C8 (witness): the fallback facts evaluated for the INTAKE preset at a
concrete burst of seven calls in one window: at most five (the fallback max)
are allowed. -/
theorem rate_limit_fallback_witness :
    ((RATE_LIMITS .INTAKE).fallbackMax < (RATE_LIMITS .INTAKE).max) ∧
    (rlRun (rateLimitKey .INTAKE none "ip") 60 5
      [(0, false), (1, false), (2, false), (3, false), (4, false), (5, false),
        (6, false)] []).1.count true ≤ 5 := by
  have h := rate_limit_fallback "ip" .INTAKE none 0 0 false false []
    [(1, false), (2, false), (3, false), (4, false), (5, false), (6, false)]
    rfl (by decide)
  exact ⟨h.1, h.2.2.2⟩

end RateLimit

namespace Notifications

/-- Notification kind (`PaymentNotificationData.type`). -/
inductive NotifType
  | payment
  | refund
  | dispute
deriving DecidableEq

/-- Model of `PaymentNotificationData`. JS numbers carrying money are modelled
as rationals so that the cents-to-units divisions stay exact. -/
structure PaymentNotificationData where
  type : NotifType
  amount : ℚ
  currency : String
  projectName : String
  projectId : Option String
  chargeId : Option String
  disputeId : Option String
  reason : Option String
  priority : Option Int
  isPartialRefund : Option Bool
  originalAmount : Option ℚ
deriving DecidableEq

/-- Response of the Pushover fetch: the HTTP ok flag and a body-text read
(`response.text()`) that can itself throw. -/
structure FetchResp where
  ok : Bool
  text : Except String String

/-- One constructor per return path of `sendPaymentNotification`. -/
inductive NotifOutcome
  | skippedNoCreds
  | sent
  | apiError
  | sendFailed
deriving DecidableEq

/-- JS truthiness of an optional string: absent and empty are falsy. -/
def falsyStr : Option String → Bool
  | none => true
  | some s => decide (s = "")

/-- The try-block of `sendPaymentNotification`: awaits the fetch (which may
throw), then branches on `response.ok`, reading the error body (which may
also throw) on the non-OK path. Uncaught errors surface as `.error`. -/
def notifyAttempt (fetchResult : Except String FetchResp) : Except String NotifOutcome :=
  match fetchResult with
  | .error e => .error e
  | .ok response =>
      if response.ok then .ok .sent
      else
        match response.text with
        | .error e => .error e
        | .ok _errorText => .ok .apiError

/-- The second `Intl.NumberFormat` rendering of the refund branch (source
line 66): only a partial refund with a truthy (nonzero) `originalAmount`
formats the original amount, with the same currency as the main amount. -/
def formatOriginal (format : ℚ → String → Except String String)
    (data : PaymentNotificationData) : Except String (Option String) :=
  match data.type with
  | .refund =>
      if data.isPartialRefund.getD false then
        match data.originalAmount with
        | some orig =>
            if orig = 0 then .ok none
            else (format orig data.currency).map some
        | none => .ok none
      else .ok none
  | _ => .ok none

/-- Model of `sendPaymentNotification`: missing Pushover credentials skip the
send with a warning; then the message is built — `format` models
`Intl.NumberFormat(..., currency).format`, which throws a `RangeError` on a
malformed currency code, and both formatting calls happen BEFORE the
try/catch, so a formatter error propagates to the caller; finally the fetch
attempt runs inside try/catch, whose catch swallows every error. -/
def sendPaymentNotification (token user : Option String)
    (fetchResult : Except String FetchResp)
    (format : ℚ → String → Except String String)
    (data : PaymentNotificationData) : Except String NotifOutcome :=
  if falsyStr token || falsyStr user then .ok .skippedNoCreds
  else
    match format data.amount data.currency with
    | .error e => .error e
    | .ok _formattedAmount =>
        match formatOriginal format data with
        | .error e => .error e
        | .ok _formattedOriginal =>
            match notifyAttempt fetchResult with
            | .ok outcome => .ok outcome
            | .error _ => .ok .sendFailed

/-- C9 (counterexample to the claim as stated): with credentials configured, a
payload whose malformed currency code makes `Intl.NumberFormat` throw (the
ECMA-402 behaviour for a code such as "EUROS") escapes
`sendPaymentNotification` as an error — the formatting runs before the
try/catch, so the function does not return normally for every input. -/
theorem sendPaymentNotification_invalid_currency_throws :
    sendPaymentNotification (some "tok") (some "usr")
      (.ok ⟨true, .ok ""⟩)
      (fun _ c =>
        if c = "EUROS" then .error "RangeError: Invalid currency code : EUROS"
        else .ok "formatted")
      ⟨.payment, 50, "EUROS", "Proj", none, none, none, none, none, none, none⟩ =
      .error "RangeError: Invalid currency code : EUROS" := rfl

/-- C9 (amended): `sendPaymentNotification` returns normally on every input
whose currency code the number formatter accepts: missing credentials skip the
send, and a throwing fetch, a non-OK provider response (even with a throwing
body read) and an OK response all yield an `.ok` outcome — the enumerated
notification failures never propagate; only a currency code rejected by
`Intl.NumberFormat`, thrown outside the try/catch, can escape. -/
theorem sendPaymentNotification_ok_when_currency_formats
    (token user : Option String) (fetchResult : Except String FetchResp)
    (format : ℚ → String → Except String String) (data : PaymentNotificationData)
    (hfmt : ∀ q, ∃ s, format q data.currency = .ok s) :
    ∃ o, sendPaymentNotification token user fetchResult format data = .ok o := by
  have horig : ∃ v, formatOriginal format data = .ok v := by
    unfold formatOriginal
    repeat' split
    all_goals first
      | exact ⟨_, rfl⟩
      | (obtain ⟨s2, hs2⟩ := hfmt _; rw [hs2]; exact ⟨_, rfl⟩)
  obtain ⟨s1, hs1⟩ := hfmt data.amount
  obtain ⟨v, hv⟩ := horig
  unfold sendPaymentNotification
  split
  · exact ⟨_, rfl⟩
  · simp only [hs1, hv]
    split <;> exact ⟨_, rfl⟩

/-- C9 (witness): the amended statement at a concrete partial-refund payload
with a well-formed currency, a well-behaved formatter and a non-OK provider
response. -/
theorem sendPaymentNotification_ok_when_currency_formats_witness :
    ∃ o, sendPaymentNotification (some "tok") (some "usr")
      (.ok ⟨false, .ok "bad request"⟩) (fun _ _ => .ok "CA$50.00")
      ⟨.refund, 50, "CAD", "Proj", none, some "ch_1", none, none, none,
        some true, some 120⟩ = .ok o :=
  sendPaymentNotification_ok_when_currency_formats (some "tok") (some "usr")
    (.ok ⟨false, .ok "bad request"⟩) (fun _ _ => .ok "CA$50.00")
    ⟨.refund, 50, "CAD", "Proj", none, some "ch_1", none, none, none,
      some true, some 120⟩ (fun _ => ⟨"CA$50.00", rfl⟩)

end Notifications

namespace Webhook

open RateLimit Notifications

/-- Payment status of a project (`paymentStatus` enum). -/
inductive PaymentStatus
  | UNPAID
  | PAID
  | PARTIALLY_REFUNDED
  | REFUNDED
  | DISPUTED
deriving DecidableEq

/-- Projection of a `projects` row to the fields the webhook path touches. -/
structure Project where
  id : String
  publicId : String
  name : String
  paymentStatus : PaymentStatus
  stripeCheckoutSessionId : Option String
  stripePaymentIntentId : Option String
deriving DecidableEq

/-- Projection of an `invoices` row to the fields the webhook path touches. -/
structure Invoice where
  id : String
  invoiceNumber : String
  status : String
  paidAt : Option Nat
deriving DecidableEq

/-- One `payment_events` row: the reconciliation ledger record. The JSON
metadata snapshot is modelled as a key/optional-value list. -/
structure PaymentEventRec where
  provider : String
  eventId : String
  eventType : String
  projectId : Option String
  status : String
  errorMsg : Option String
  metadata : List (String × Option String)
deriving DecidableEq

/-- The persistent state the webhook route can read or mutate. -/
structure DbState where
  paymentEvents : List PaymentEventRec
  projects : List Project
  invoices : List Invoice
  notifications : List PaymentNotificationData
deriving DecidableEq

/-- Full state of the route module: the in-memory rate limit map with its
cleanup timestamp, plus the database. -/
structure WebhookState where
  rateLimit : RLMap
  lastCleanup : Nat
  db : DbState

/-- View of `event.data.object` as a `Stripe.Checkout.Session`. -/
structure CheckoutSession where
  id : String
  metadata : Option (List (String × String))
  payment_intent : Option String
  amount_total : Option Int
  customer_email : Option String
  currency : Option String

/-- View of `event.data.object` as a `Stripe.Charge`. -/
structure ChargeData where
  id : String
  amount : Int
  amount_refunded : Int
  refunded : Bool
  currency : String
  payment_intent : Option String

/-- View of `event.data.object` as a `Stripe.Dispute` (with the charge and
payment intent already projected to ids, as the handler does). -/
structure DisputeData where
  id : String
  amount : Int
  currency : String
  reason : String
  charge : Option String
  payment_intent : Option String

/-- View of `event.data.object` as a `Stripe.PaymentIntent` with its last
payment error. -/
structure PaymentIntentData where
  id : String
  lastErrorMessage : Option String
  lastErrorCode : Option String
  lastErrorType : Option String

/-- A verified Stripe event. Each handler casts `event.data.object` to the
shape it expects; the optional views model that cast, a `none` view behaving
like a cast of the wrong object (all fields undefined). -/
structure StripeEvent where
  id : String
  type : String
  session : Option CheckoutSession
  charge : Option ChargeData
  dispute : Option DisputeData
  paymentIntent : Option PaymentIntentData

/-- Environment of the route process. -/
structure Env where
  webhookSecret : Option String
  nodeEnvProduction : Bool

/-- HTTP response: status code plus the discriminating payload field (the
`status` tag of the JSON body for 2xx answers, the `error` text otherwise). -/
structure ApiResponse where
  status : Nat
  tag : String
deriving DecidableEq

/-- Modelled from the spec: `lib/stripe.ts` (`STRIPE_METADATA_KEYS`) is not
among the sources. The §6 correlation contract stores the project's public id
in provider metadata; the handler's log line names the key. -/
def PROJECT_PUBLIC_ID_KEY : String := "project_public_id"

/-- Modelled from the spec: the environment tag key of `STRIPE_METADATA_KEYS`
(`lib/stripe.ts` is not among the sources). -/
def ENVIRONMENT_KEY : String := "environment"

/-- JS truthiness of an optional string (`undefined` and the empty string are
falsy). -/
def truthy : Option String → Bool
  | none => false
  | some s => decide (¬ s = "")

/-- JS truthiness of an optional number (`undefined` and 0 are falsy). -/
def truthyInt : Option Int → Bool
  | none => false
  | some a => decide (¬ a = 0)

/-- Lookup `session.metadata?.[key]`. -/
def metaGet (m : Option (List (String × String))) (key : String) : Option String :=
  match m with
  | none => none
  | some l => l.lookup key

/-- The `a || fallback` idiom on optional strings. -/
def strOr (s : Option String) (fallback : String) : String :=
  match s with
  | none => fallback
  | some v => if v = "" then fallback else v

/-- The `project?.name || fallback` idiom. -/
def nameOr (p : Option Project) (fallback : String) : String :=
  match p with
  | none => fallback
  | some pr => if pr.name = "" then fallback else pr.name

/-- The `session.currency?.toUpperCase() || 'CAD'` idiom. -/
def currencyOr (c : Option String) : String :=
  match c with
  | none => "CAD"
  | some s => if s.toUpper = "" then "CAD" else s.toUpper

def defaultSession : CheckoutSession := ⟨"", none, none, none, none, none⟩

def defaultCharge : ChargeData := ⟨"", 0, 0, false, "", none⟩

def defaultDispute : DisputeData := ⟨"", 0, "", "", none, none⟩

def defaultPaymentIntent : PaymentIntentData := ⟨"", none, none, none⟩

/-- The `if (environment && environment !== currentEnv)` guard. -/
def envMismatch (environment : Option String) (currentEnv : String) : Bool :=
  match environment with
  | none => false
  | some e => decide (¬ e = "") && decide (¬ e = currentEnv)

/-- Modelled from the spec: `isEventProcessed` of `lib/payment-status.ts`
(not among the sources) is a fast existence check of the event id against the
reconciliation-record store (§4.4). -/
def isEventProcessed (eventId : String) (db : DbState) : Bool :=
  db.paymentEvents.any fun r => r.eventId == eventId

/-- Result record of the payment-status processing functions, with the fields
the route reads (`success`, `skipped`, `unmatched`, `isPartial`, `projectId`,
`error`). -/
structure ProcessResult where
  success : Bool
  skipped : Bool
  unmatched : Bool
  isPartial : Bool
  projectId : Option String
  error : Option String

/-- Model of `prisma.invoices.update({ where: { id } })`: fails (`none`, the
P2025 throw) when no row matches, otherwise marks the invoice PAID now. -/
def updateInvoicePaid (invoices : List Invoice) (iid : String) (now : Nat) :
    Option (List Invoice) :=
  if invoices.any (fun i => i.id == iid) then
    some (invoices.map fun i =>
      if i.id == iid then ⟨i.id, i.invoiceNumber, "PAID", some now⟩ else i)
  else none

/-- Modelled from the spec: `processStripeCheckoutCompleted` of
`lib/payment-status.ts` (not among the sources), following §4.5 for
`checkout-completed`: resolve the project by the echoed public id; unresolved
yields an UNMATCHED record; an already PAID project yields a SUCCESS record
with a skipped marker and no state change; otherwise the project transitions
to PAID, the Stripe correlation identifiers are persisted on it, and a
SUCCESS record is written. -/
def processStripeCheckoutCompleted (eventId eventType projectPublicId : String)
    (checkoutSessionId : String) (paymentIntentId : Option String) (db : DbState) :
    ProcessResult × DbState :=
  match db.projects.find? (fun p => p.publicId == projectPublicId) with
  | none =>
      (⟨false, false, true, false, none, some "No project found for public id"⟩,
        { db with paymentEvents := db.paymentEvents ++
          [⟨"STRIPE", eventId, eventType, none, "UNMATCHED",
            some "No project found for public id", []⟩] })
  | some p =>
      if p.paymentStatus = PaymentStatus.PAID then
        (⟨true, true, false, false, some p.id, none⟩,
          { db with paymentEvents := db.paymentEvents ++
            [⟨"STRIPE", eventId, eventType, some p.id, "SUCCESS",
              some "Skipped: already paid", []⟩] })
      else
        (⟨true, false, false, false, some p.id, none⟩,
          { db with
            projects := db.projects.map fun q =>
              if q.id == p.id then
                ⟨q.id, q.publicId, q.name, PaymentStatus.PAID,
                  some checkoutSessionId, paymentIntentId⟩
              else q,
            paymentEvents := db.paymentEvents ++
              [⟨"STRIPE", eventId, eventType, some p.id, "SUCCESS", none, []⟩] })

/-- Modelled from the spec: `processStripeRefund` of `lib/payment-status.ts`
(not among the sources), following §4.5 for `charge-refunded`: the owning
project may be unresolved (UNMATCHED record); otherwise it transitions to
REFUNDED or PARTIALLY_REFUNDED per the provider's own full-refund flag and a
SUCCESS record is written. -/
def processStripeRefund (eventId eventType : String) (isFullRefund : Bool)
    (projectId : Option String) (db : DbState) : ProcessResult × DbState :=
  match projectId with
  | none =>
      (⟨false, false, true, !isFullRefund, none, some "No project found for refund"⟩,
        { db with paymentEvents := db.paymentEvents ++
          [⟨"STRIPE", eventId, eventType, none, "UNMATCHED",
            some "No project found for refund", []⟩] })
  | some pid =>
      (⟨true, false, false, !isFullRefund, some pid, none⟩,
        { db with
          projects := db.projects.map fun q =>
            if q.id == pid then
              ⟨q.id, q.publicId, q.name,
                if isFullRefund then PaymentStatus.REFUNDED
                else PaymentStatus.PARTIALLY_REFUNDED,
                q.stripeCheckoutSessionId, q.stripePaymentIntentId⟩
            else q,
          paymentEvents := db.paymentEvents ++
            [⟨"STRIPE", eventId, eventType, some pid, "SUCCESS", none, []⟩] })

/-- Model of `handleCheckoutSessionCompleted` (route lines 400-556). -/
def handleCheckoutSessionCompleted (env : Env) (now : Nat) (event : StripeEvent)
    (db : DbState) : ApiResponse × DbState :=
  let session := event.session.getD defaultSession
  let projectPublicId := metaGet session.metadata PROJECT_PUBLIC_ID_KEY
  let environment := metaGet session.metadata ENVIRONMENT_KEY
  let currentEnv := if env.nodeEnvProduction then "production" else "development"
  if envMismatch environment currentEnv then (⟨200, "wrong_environment"⟩, db)
  else
    let invoiceId := metaGet session.metadata "invoice_id"
    if !truthy projectPublicId then
      if truthy invoiceId then
        -- Invoice-only payment: mark the invoice paid, record the event,
        -- notify; a persistence failure here is caught and answered 500.
        let iid := invoiceId.getD ""
        match updateInvoicePaid db.invoices iid now with
        | none => (⟨500, "Failed to process"⟩, db)
        | some invoices1 =>
            let db1 : DbState :=
              { db with
                invoices := invoices1,
                paymentEvents := db.paymentEvents ++
                  [⟨"STRIPE", event.id, event.type, none, "SUCCESS", none,
                    [("sessionId", some session.id), ("invoiceId", some iid),
                      ("customerEmail", session.customer_email),
                      ("amountTotal", session.amount_total.map toString),
                      ("note", some "Invoice paid without linked project")]⟩] }
            let db2 : DbState :=
              if truthyInt session.amount_total then
                let invNum :=
                  match db1.invoices.find? (fun i => i.id == iid) with
                  | some inv => if inv.invoiceNumber = "" then iid else inv.invoiceNumber
                  | none => iid
                { db1 with notifications := db1.notifications ++
                  [⟨.payment, (session.amount_total.getD 0 : ℚ) / 100,
                    currencyOr session.currency, "Invoice " ++ invNum,
                    none, none, none, none, none, none, none⟩] }
              else db1
            (⟨200, "success"⟩, db2)
      else
        -- No correlation key at all: one UNMATCHED record, nothing else.
        (⟨200, "unmatched"⟩,
          { db with paymentEvents := db.paymentEvents ++
            [⟨"STRIPE", event.id, event.type, none, "UNMATCHED",
              some "Missing project_public_id in session metadata",
              [("sessionId", some session.id),
                ("customerEmail", session.customer_email),
                ("amountTotal", session.amount_total.map toString)]⟩] })
    else
      let ppid := projectPublicId.getD ""
      let res := processStripeCheckoutCompleted event.id event.type ppid session.id
        session.payment_intent db
      if !res.1.success then
        if res.1.unmatched then (⟨200, "unmatched"⟩, res.2)
        else (⟨500, (res.1.error).getD "Unknown error"⟩, res.2)
      else if res.1.skipped then (⟨200, "success"⟩, res.2)
      else
        -- Mark a linked invoice PAID; a failure there is logged, not fatal.
        let db2 : DbState :=
          if truthy invoiceId then
            match updateInvoicePaid res.2.invoices (invoiceId.getD "") now with
            | some invoices1 => { res.2 with invoices := invoices1 }
            | none => res.2
          else res.2
        let db3 : DbState :=
          if truthyInt session.amount_total then
            let project := db2.projects.find? (fun p => p.publicId == ppid)
            { db2 with notifications := db2.notifications ++
              [⟨.payment, (session.amount_total.getD 0 : ℚ) / 100,
                currencyOr session.currency, nameOr project ppid,
                project.map (·.id), none, none, none, none, none, none⟩] }
          else db2
        (⟨200, "success"⟩, db3)

/-- Model of `handleCheckoutSessionExpired`: log-only, one SUCCESS record. -/
def handleCheckoutSessionExpired (event : StripeEvent) (db : DbState) :
    ApiResponse × DbState :=
  let session := event.session.getD defaultSession
  let projectPublicId := metaGet session.metadata PROJECT_PUBLIC_ID_KEY
  (⟨200, "logged"⟩,
    { db with paymentEvents := db.paymentEvents ++
      [⟨"STRIPE", event.id, event.type, none, "SUCCESS", none,
        [("sessionId", some session.id), ("projectPublicId", projectPublicId),
          ("reason", some "Session expired before completion")]⟩] })

/-- Model of `handlePaymentIntentFailed`: log-only, one FAILED record. -/
def handlePaymentIntentFailed (event : StripeEvent) (db : DbState) :
    ApiResponse × DbState :=
  let paymentIntent := event.paymentIntent.getD defaultPaymentIntent
  (⟨200, "logged"⟩,
    { db with paymentEvents := db.paymentEvents ++
      [⟨"STRIPE", event.id, event.type, none, "FAILED",
        some (strOr paymentIntent.lastErrorMessage "Payment failed"),
        [("paymentIntentId", some paymentIntent.id),
          ("errorCode", paymentIntent.lastErrorCode),
          ("errorType", paymentIntent.lastErrorType)]⟩] })

/-- Model of `handleChargeRefunded` (route lines 621-677). -/
def handleChargeRefunded (event : StripeEvent) (db : DbState) :
    ApiResponse × DbState :=
  let charge := event.charge.getD defaultCharge
  let isFullRefund := charge.refunded
  let currency := charge.currency.toUpper
  let project :=
    if truthy charge.payment_intent then
      db.projects.find? fun p => p.stripePaymentIntentId == charge.payment_intent
    else none
  let res := processStripeRefund event.id event.type isFullRefund
    (project.map (·.id)) db
  let db2 : DbState :=
    { res.2 with notifications := res.2.notifications ++
      [⟨.refund, (charge.amount_refunded : ℚ) / 100, currency,
        nameOr project "Unknown Project", project.map (·.id), some charge.id,
        none, none, none, some (!isFullRefund), some ((charge.amount : ℚ) / 100)⟩] }
  (⟨200, if res.1.success then "success" else "logged"⟩, db2)

/-- Model of `handleChargeDisputeCreated` (route lines 683-741). -/
def handleChargeDisputeCreated (event : StripeEvent) (db : DbState) :
    ApiResponse × DbState :=
  let dispute := event.dispute.getD defaultDispute
  let project :=
    if truthy dispute.payment_intent then
      db.projects.find? fun p => p.stripePaymentIntentId == dispute.payment_intent
    else none
  let db1 : DbState :=
    { db with paymentEvents := db.paymentEvents ++
      [⟨"STRIPE", event.id, event.type, project.map (·.id), "DISPUTE",
        some ("Dispute: " ++ dispute.reason),
        [("disputeId", some dispute.id), ("chargeId", dispute.charge),
          ("amount", some (toString dispute.amount)),
          ("currency", some dispute.currency.toUpper),
          ("reason", some dispute.reason),
          ("projectName", project.map (·.name))]⟩] }
  let db2 : DbState :=
    { db1 with notifications := db1.notifications ++
      [⟨.dispute, (dispute.amount : ℚ) / 100, dispute.currency.toUpper,
        nameOr project "Unknown Project", project.map (·.id), none,
        some dispute.id, some dispute.reason, some 1, none, none⟩] }
  (⟨200, "logged"⟩, db2)

/-- Route-level rate limit constants (webhook variant). -/
def RATE_LIMIT_WINDOW : Nat := 60 * 1000

def RATE_LIMIT_MAX : Nat := 100

def RATE_LIMIT_CLEANUP_INTERVAL : Nat := 5 * 60 * 1000

def RATE_LIMIT_MAX_ENTRIES : Nat := 1000

/-- Model of the route's `cleanupRateLimitMap`: sweeps expired entries only
when the interval has passed or the map grew too large. -/
def cleanupRateLimitMap (now : Nat) (m : RLMap) (lastCleanup : Nat) : RLMap × Nat :=
  if now - lastCleanup < RATE_LIMIT_CLEANUP_INTERVAL ∧ m.length < RATE_LIMIT_MAX_ENTRIES then
    (m, lastCleanup)
  else (sweepRL now m, now)

/-- Model of the route's local `checkRateLimit` (per-IP, max 100/min): cleanup
first, then the entry lookup on the cleaned map. -/
def webhookCheckRateLimit (now : Nat) (ip : String) (m : RLMap) (lastCleanup : Nat) :
    Bool × RLMap × Nat :=
  let cleaned := cleanupRateLimitMap now m lastCleanup
  match lookupRL cleaned.1 ip with
  | none => (true, setRL cleaned.1 ip ⟨1, now + RATE_LIMIT_WINDOW⟩, cleaned.2)
  | some entry =>
      if now > entry.resetAt then
        (true, setRL cleaned.1 ip ⟨1, now + RATE_LIMIT_WINDOW⟩, cleaned.2)
      else if entry.count ≥ RATE_LIMIT_MAX then (false, cleaned.1, cleaned.2)
      else (true, setRL cleaned.1 ip ⟨entry.count + 1, entry.resetAt⟩, cleaned.2)

/-- Inbound request: forwarded-for header, signature header, and the raw body
(`none` models `request.text()` throwing). -/
structure WebhookRequest where
  xForwardedFor : Option String
  stripeSignature : Option String
  body : Option String

/-- The `request.headers.get('x-forwarded-for')?.split(',')[0] || 'unknown'`
extraction. -/
def requestIp (req : WebhookRequest) : String :=
  match req.xForwardedFor with
  | none => "unknown"
  | some s =>
      let first := (s.splitOn ",").headD ""
      if first = "" then "unknown" else first

/-- Model of the webhook `POST` handler. `verify` abstracts
`verifyStripeWebhook` of `lib/stripe.ts`, which is not among the sources —
modelled from the spec (§4.3): it returns the typed, parsed event on a valid
signature and throws `SignatureInvalid` otherwise. The try/catch around the
event switch answers 500 on a handler throw; the handlers as modelled surface
their only caught persistence failure themselves, so the switch is direct. -/
def POST (verify : String → String → String → Except String StripeEvent)
    (env : Env) (now : Nat) (req : WebhookRequest) (st : WebhookState) :
    ApiResponse × WebhookState :=
  let ip := requestIp req
  let rl := webhookCheckRateLimit now ip st.rateLimit st.lastCleanup
  let st1 : WebhookState := ⟨rl.2.1, rl.2.2, st.db⟩
  if !rl.1 then (⟨429, "Rate limit exceeded"⟩, st1)
  else if !truthy env.webhookSecret then (⟨500, "Webhook not configured"⟩, st1)
  else if !truthy req.stripeSignature then (⟨400, "Missing signature"⟩, st1)
  else
    match req.body with
    | none => (⟨400, "Invalid body"⟩, st1)
    | some rawBody =>
        match verify rawBody (req.stripeSignature.getD "") (env.webhookSecret.getD "") with
        | .error _ => (⟨401, "Invalid signature"⟩, st1)
        | .ok event =>
            if isEventProcessed event.id st1.db then (⟨200, "already_processed"⟩, st1)
            else
              let handled : ApiResponse × DbState :=
                if event.type = "checkout.session.completed" then
                  handleCheckoutSessionCompleted env now event st1.db
                else if event.type = "checkout.session.expired" then
                  handleCheckoutSessionExpired event st1.db
                else if event.type = "payment_intent.payment_failed" then
                  handlePaymentIntentFailed event st1.db
                else if event.type = "charge.refunded" then
                  handleChargeRefunded event st1.db
                else if event.type = "charge.dispute.created" then
                  handleChargeDisputeCreated event st1.db
                else (⟨200, "unhandled"⟩, st1.db)
              (handled.1, ⟨rl.2.1, rl.2.2, handled.2⟩)

/-- Empty database fixture. -/
def emptyDb : DbState := ⟨[], [], [], []⟩

/-- Fresh route state fixture. -/
def emptyState : WebhookState := ⟨[], 0, emptyDb⟩

/-- A verified checkout-completed event tagged for the production environment
and carrying no correlation identifier. -/
def sampleWrongEnvEvent : StripeEvent :=
  ⟨"evt_wrong_env", "checkout.session.completed",
    some ⟨"cs_1", some [("environment", "production")], none, none, none, none⟩,
    none, none, none⟩

theorem truthy_some_ne (s : String) (h : s ≠ "") : truthy (some s) = true := by
  simp [truthy, h]

theorem truthy_none : truthy none = false := rfl

theorem envMismatch_some_ne (e cur : String) (h1 : e ≠ "") (h2 : e ≠ cur) :
    envMismatch (some e) cur = true := by
  simp [envMismatch, h1, h2]

/-- C1 (main): a redelivered event whose id is already recorded is answered
200 `already_processed` before any handler runs: the database (ledger,
projects, invoices, notifications) is untouched. -/
theorem webhook_duplicate_acknowledged
    (verify : String → String → String → Except String StripeEvent)
    (env : Env) (now : Nat) (req : WebhookRequest) (st : WebhookState)
    (secret signature rawBody : String) (event : StripeEvent)
    (hall : (webhookCheckRateLimit now (requestIp req) st.rateLimit st.lastCleanup).1 = true)
    (hsec : env.webhookSecret = some secret) (hsecne : secret ≠ "")
    (hsig : req.stripeSignature = some signature) (hsigne : signature ≠ "")
    (hbody : req.body = some rawBody)
    (hverify : verify rawBody signature secret = .ok event)
    (hdup : isEventProcessed event.id st.db = true) :
    (POST verify env now req st).1 = ⟨200, "already_processed"⟩ ∧
    (POST verify env now req st).2.db = st.db := by
  unfold POST
  simp [hall, hsec, hsig, hbody, hverify, hdup, truthy_some_ne _ hsecne,
    truthy_some_ne _ hsigne]

/-- C1 (witness): the duplicate path evaluated on a concrete state already
holding the event id. -/
theorem webhook_duplicate_acknowledged_witness :
    (POST (fun _ _ _ => .ok ⟨"evt_1", "charge.refunded", none, none, none, none⟩)
      ⟨some "whsec", false⟩ 0 ⟨none, some "sig", some "payload"⟩
      ⟨[], 0, ⟨[⟨"STRIPE", "evt_1", "charge.refunded", none, "SUCCESS", none, []⟩],
        [], [], []⟩⟩).1 = ⟨200, "already_processed"⟩ ∧
    (POST (fun _ _ _ => .ok ⟨"evt_1", "charge.refunded", none, none, none, none⟩)
      ⟨some "whsec", false⟩ 0 ⟨none, some "sig", some "payload"⟩
      ⟨[], 0, ⟨[⟨"STRIPE", "evt_1", "charge.refunded", none, "SUCCESS", none, []⟩],
        [], [], []⟩⟩).2.db =
      ⟨[⟨"STRIPE", "evt_1", "charge.refunded", none, "SUCCESS", none, []⟩], [], [], []⟩ :=
  webhook_duplicate_acknowledged
    (fun _ _ _ => .ok ⟨"evt_1", "charge.refunded", none, none, none, none⟩)
    ⟨some "whsec", false⟩ 0 ⟨none, some "sig", some "payload"⟩
    ⟨[], 0, ⟨[⟨"STRIPE", "evt_1", "charge.refunded", none, "SUCCESS", none, []⟩],
      [], [], []⟩⟩ "whsec" "sig" "payload"
    ⟨"evt_1", "charge.refunded", none, none, none, none⟩
    rfl rfl (by decide) rfl (by decide) rfl rfl rfl

/-- C2 (counterexample to the claim as stated): a request with the signature
header missing entirely is answered 400, not the claimed 401. -/
theorem webhook_missing_signature_responds_400 :
    (POST (fun _ _ _ => .error "SignatureInvalid") ⟨some "whsec", false⟩ 0
      ⟨none, none, some "payload"⟩ emptyState).1 = ⟨400, "Missing signature"⟩ ∧
    (POST (fun _ _ _ => .error "SignatureInvalid") ⟨some "whsec", false⟩ 0
      ⟨none, none, some "payload"⟩ emptyState).1.status ≠ 401 :=
  ⟨rfl, by decide⟩

/-- C2 (amended): a mismatched or malformed signature (verification throws) is
answered 401, and a missing signature header is answered 400; in both cases
the request is rejected before any processing — no ledger record, no resource
mutation, no notification. -/
theorem webhook_signature_rejected
    (verify : String → String → String → Except String StripeEvent)
    (env : Env) (now : Nat) (req : WebhookRequest) (st : WebhookState)
    (secret rawBody : String)
    (hall : (webhookCheckRateLimit now (requestIp req) st.rateLimit st.lastCleanup).1 = true)
    (hsec : env.webhookSecret = some secret) (hsecne : secret ≠ "")
    (hbody : req.body = some rawBody) :
    (∀ signature msg, req.stripeSignature = some signature → signature ≠ "" →
      verify rawBody signature secret = .error msg →
      (POST verify env now req st).1 = ⟨401, "Invalid signature"⟩ ∧
      (POST verify env now req st).2.db = st.db) ∧
    (req.stripeSignature = none →
      (POST verify env now req st).1 = ⟨400, "Missing signature"⟩ ∧
      (POST verify env now req st).2.db = st.db) := by
  constructor
  · intro signature msg hsig hsigne hverify
    unfold POST
    simp [hall, hsec, hsig, hbody, hverify, truthy_some_ne _ hsecne,
      truthy_some_ne _ hsigne]
  · intro hsig
    unfold POST
    simp [hall, hsec, hsig, hbody, truthy_none, truthy_some_ne _ hsecne]

/-- C2 (witness): both rejection paths at concrete inputs. -/
theorem webhook_signature_rejected_witness :
    (POST (fun _ _ _ => .error "SignatureInvalid") ⟨some "whsec", false⟩ 0
      ⟨none, some "t=1,v1=bad", some "payload"⟩ emptyState).1 =
      ⟨401, "Invalid signature"⟩ ∧
    (POST (fun _ _ _ => .error "SignatureInvalid") ⟨some "whsec", false⟩ 0
      ⟨none, none, some "payload"⟩ emptyState).1 = ⟨400, "Missing signature"⟩ :=
  ⟨((webhook_signature_rejected (fun _ _ _ => .error "SignatureInvalid")
      ⟨some "whsec", false⟩ 0 ⟨none, some "t=1,v1=bad", some "payload"⟩
      emptyState "whsec" "payload" rfl rfl (by decide) rfl).1 "t=1,v1=bad"
      "SignatureInvalid" rfl (by decide) rfl).1,
    ((webhook_signature_rejected (fun _ _ _ => .error "SignatureInvalid")
      ⟨some "whsec", false⟩ 0 ⟨none, none, some "payload"⟩
      emptyState "whsec" "payload" rfl rfl (by decide) rfl).2 rfl).1⟩

/-- C3 (counterexample to the claim as stated): a verified checkout-completed
event with no correlation identifier but an environment tag differing from the
current environment is acknowledged as `wrong_environment` and creates no
UNMATCHED record at all. -/
theorem webhook_wrong_env_uncorrelated_no_record :
    (POST (fun _ _ _ => .ok sampleWrongEnvEvent) ⟨some "whsec", false⟩ 0
      ⟨none, some "sig", some "payload"⟩ emptyState).1 = ⟨200, "wrong_environment"⟩ ∧
    (POST (fun _ _ _ => .ok sampleWrongEnvEvent) ⟨some "whsec", false⟩ 0
      ⟨none, some "sig", some "payload"⟩ emptyState).2.db.paymentEvents = [] :=
  ⟨rfl, rfl⟩

/-- C3 (amended): a verified, not-yet-processed checkout-completed event whose
environment tag does not divert it and whose metadata carries neither a
truthy project public id nor a truthy invoice id creates exactly one new
payment_events record, with status UNMATCHED, changes no project, invoice or
notification state, and is answered 200 `unmatched`. -/
theorem webhook_unmatched_no_correlation
    (verify : String → String → String → Except String StripeEvent)
    (env : Env) (now : Nat) (req : WebhookRequest) (st : WebhookState)
    (secret signature rawBody : String) (event : StripeEvent) (s : CheckoutSession)
    (hall : (webhookCheckRateLimit now (requestIp req) st.rateLimit st.lastCleanup).1 = true)
    (hsec : env.webhookSecret = some secret) (hsecne : secret ≠ "")
    (hsig : req.stripeSignature = some signature) (hsigne : signature ≠ "")
    (hbody : req.body = some rawBody)
    (hverify : verify rawBody signature secret = .ok event)
    (hdup : isEventProcessed event.id st.db = false)
    (htype : event.type = "checkout.session.completed")
    (hsess : event.session = some s)
    (henv : envMismatch (metaGet s.metadata ENVIRONMENT_KEY)
      (if env.nodeEnvProduction then "production" else "development") = false)
    (hppid : truthy (metaGet s.metadata PROJECT_PUBLIC_ID_KEY) = false)
    (hinv : truthy (metaGet s.metadata "invoice_id") = false) :
    (POST verify env now req st).1 = ⟨200, "unmatched"⟩ ∧
    (POST verify env now req st).2.db.paymentEvents = st.db.paymentEvents ++
      [⟨"STRIPE", event.id, "checkout.session.completed", none, "UNMATCHED",
        some "Missing project_public_id in session metadata",
        [("sessionId", some s.id), ("customerEmail", s.customer_email),
          ("amountTotal", s.amount_total.map toString)]⟩] ∧
    (POST verify env now req st).2.db.projects = st.db.projects ∧
    (POST verify env now req st).2.db.invoices = st.db.invoices ∧
    (POST verify env now req st).2.db.notifications = st.db.notifications := by
  unfold POST handleCheckoutSessionCompleted
  simp [hall, hsec, hsig, hbody, hverify, hdup, htype, hsess, henv, hppid, hinv,
    truthy_some_ne _ hsecne, truthy_some_ne _ hsigne]

/-- C3 (witness): the amended statement at a concrete event with empty
metadata on a fresh state. -/
theorem webhook_unmatched_no_correlation_witness :
    (POST (fun _ _ _ => .ok ⟨"evt_u", "checkout.session.completed",
        some ⟨"cs_u", none, none, some 5000, some "c@x.io", some "cad"⟩,
        none, none, none⟩)
      ⟨some "whsec", false⟩ 0 ⟨none, some "sig", some "payload"⟩ emptyState).1 =
      ⟨200, "unmatched"⟩ ∧
    (POST (fun _ _ _ => .ok ⟨"evt_u", "checkout.session.completed",
        some ⟨"cs_u", none, none, some 5000, some "c@x.io", some "cad"⟩,
        none, none, none⟩)
      ⟨some "whsec", false⟩ 0 ⟨none, some "sig", some "payload"⟩
      emptyState).2.db.paymentEvents =
      [⟨"STRIPE", "evt_u", "checkout.session.completed", none, "UNMATCHED",
        some "Missing project_public_id in session metadata",
        [("sessionId", some "cs_u"), ("customerEmail", some "c@x.io"),
          ("amountTotal", some "5000")]⟩] := by
  have h := webhook_unmatched_no_correlation
    (fun _ _ _ => .ok ⟨"evt_u", "checkout.session.completed",
      some ⟨"cs_u", none, none, some 5000, some "c@x.io", some "cad"⟩,
      none, none, none⟩)
    ⟨some "whsec", false⟩ 0 ⟨none, some "sig", some "payload"⟩ emptyState
    "whsec" "sig" "payload"
    ⟨"evt_u", "checkout.session.completed",
      some ⟨"cs_u", none, none, some 5000, some "c@x.io", some "cad"⟩,
      none, none, none⟩
    ⟨"cs_u", none, none, some 5000, some "c@x.io", some "cad"⟩
    rfl rfl (by decide) rfl (by decide) rfl rfl rfl rfl rfl rfl rfl rfl
  exact ⟨h.1, by rw [h.2.1]; rfl⟩

/-- C10 (main): a verified, not-yet-processed checkout-completed event whose
metadata carries a nonempty environment tag differing from the process's
current environment is acknowledged 200 `wrong_environment` with the database
entirely unchanged — no record, no project or invoice update, no
notification. -/
theorem webhook_wrong_environment_skips
    (verify : String → String → String → Except String StripeEvent)
    (env : Env) (now : Nat) (req : WebhookRequest) (st : WebhookState)
    (secret signature rawBody e : String) (event : StripeEvent) (s : CheckoutSession)
    (hall : (webhookCheckRateLimit now (requestIp req) st.rateLimit st.lastCleanup).1 = true)
    (hsec : env.webhookSecret = some secret) (hsecne : secret ≠ "")
    (hsig : req.stripeSignature = some signature) (hsigne : signature ≠ "")
    (hbody : req.body = some rawBody)
    (hverify : verify rawBody signature secret = .ok event)
    (hdup : isEventProcessed event.id st.db = false)
    (htype : event.type = "checkout.session.completed")
    (hsess : event.session = some s)
    (henvtag : metaGet s.metadata ENVIRONMENT_KEY = some e) (hene : e ≠ "")
    (hneq : e ≠ (if env.nodeEnvProduction then "production" else "development")) :
    (POST verify env now req st).1 = ⟨200, "wrong_environment"⟩ ∧
    (POST verify env now req st).2.db = st.db := by
  unfold POST handleCheckoutSessionCompleted
  simp [hall, hsec, hsig, hbody, hverify, hdup, htype, hsess, henvtag,
    envMismatch_some_ne _ _ hene hneq, truthy_some_ne _ hsecne,
    truthy_some_ne _ hsigne]

/-- C10 (witness): the environment-mismatch skip at the concrete
production-tagged event processed by a development process. -/
theorem webhook_wrong_environment_skips_witness :
    (POST (fun _ _ _ => .ok sampleWrongEnvEvent) ⟨some "whsec", false⟩ 0
      ⟨none, some "sig", some "payload"⟩ emptyState).1 =
      ⟨200, "wrong_environment"⟩ ∧
    (POST (fun _ _ _ => .ok sampleWrongEnvEvent) ⟨some "whsec", false⟩ 0
      ⟨none, some "sig", some "payload"⟩ emptyState).2.db = emptyDb :=
  webhook_wrong_environment_skips (fun _ _ _ => .ok sampleWrongEnvEvent)
    ⟨some "whsec", false⟩ 0 ⟨none, some "sig", some "payload"⟩ emptyState
    "whsec" "sig" "payload" "production" sampleWrongEnvEvent
    ⟨"cs_1", some [("environment", "production")], none, none, none, none⟩
    rfl rfl (by decide) rfl (by decide) rfl rfl rfl rfl rfl rfl (by decide)
    (by decide)

end Webhook

end SystemBuild
